import Mathlib

/-!
Verification development for the Food_Product_Agent repository.

The two deterministic algorithms of `PRODUCT_AGENT/tools.py` — the NOVA
processing classifier `classify_nova` and the nutrient scorer
`compute_health_score` — together with the candidate-ranking part of
`suggest_alternatives`, are embedded shallowly below.  Python strings are
modelled by `String`, Python `dict` lookups by association-list lookups,
Python floats by `ℚ` (exact arithmetic; `round(x, 1)` is modelled by
half-up rounding on rationals), and the dynamic typing of nutrient values,
where it matters, by the `PyVal` sum type.
-/

namespace ProductAgent

/-- Models Python's `needle` being a prefix of `hay` on character lists. -/
def listStartsWith : List Char → List Char → Bool
  | [], _ => true
  | _ :: _, [] => false
  | a :: as, b :: bs => a == b && listStartsWith as bs

/-- Models Python's substring test `needle in hay` on character lists. -/
def listContainsSub : List Char → List Char → Bool
  | [], needle => listStartsWith needle []
  | c :: t, needle => listStartsWith needle (c :: t) || listContainsSub t needle

/-- Models Python's `needle in hay` for strings. -/
def strContains (hay needle : String) : Bool :=
  listContainsSub hay.toList needle.toList

/-- Models Python's `hay.find(needle)`: index of the first occurrence. -/
def listFindSub : List Char → List Char → Option Nat
  | [], needle => if listStartsWith needle [] then some 0 else none
  | c :: t, needle =>
      if listStartsWith needle (c :: t) then some 0
      else (listFindSub t needle).map (· + 1)

/-- First index at which `needle` occurs in `hay`, if any. -/
def strFind (hay needle : String) : Option Nat :=
  listFindSub hay.toList needle.toList

/-- Models Python's `str.lower()` (ASCII case folding), character by
character. -/
def pyLower (s : String) : String := ⟨s.data.map Char.toLower⟩

/-- Models Python's `s.count(c)` for a single character. -/
def countChar (s : String) (c : Char) : Nat := s.toList.count c

/-! ## NOVA classification (`classify_nova`, tools.py lines 84–216) -/

/-- Group 4 indicators: substances only found in ultra-processed products
(tools.py lines 106–119). -/
def group_4_substances : List String :=
  ["casein", "lactose", "whey", "gluten",
   "hydrogenated oil", "interesterified oil", "hydrolysed protein",
   "soy protein isolate", "maltodextrin", "invert sugar",
   "high fructose corn syrup", "high-fructose corn syrup",
   "dye", "colour stabiliser", "color stabilizer", "flavour enhancer",
   "flavor enhancer", "non-sugar sweetener", "aspartame", "sucralose",
   "acesulfame", "carbonating agent", "firming agent", "bulking agent",
   "anti-caking agent", "glazing agent", "emulsifier", "sequestrant",
   "humectant", "modified starch", "monosodium glutamate", "msg"]

/-- Group 3 indicators: preservation/cooking additives (lines 122–124). -/
def group_3_additives : List String :=
  ["anti-oxidant", "antioxidant", "preservative", "stabiliser", "stabilizer"]

/-- Group 2 indicators: culinary ingredients (lines 127–130). -/
def group_2_ingredients : List String :=
  ["oil", "butter", "lard", "sugar", "salt", "honey", "syrup", "molasses",
   "vinegar", "starch"]

/-- Cosmetic/sensory additive markers scanned at lines 140–143. -/
def cosmetic_terms : List String :=
  ["artificial sweetener", "emulsifier", "flavour enhancer", "flavor enhancer",
   "colour", "color", "dye"]

/-- `ing = (ingredients_text or "").lower()` (line 103); `none` models
Python `None`. -/
def ingOf (ingredients_text : Option String) : String :=
  pyLower (ingredients_text.getD "")

/-- `ingredient_count = ing.count(",") + 1 if ing else 0` (line 133). -/
def ingredientCount (ing : String) : Nat :=
  if ing = "" then 0 else countChar ing ',' + 1

/-- `group_4_matches = [term for term in group_4_substances if term in ing]`
(line 136): the matched group-4 markers, in vocabulary order. -/
def group4Matches (ing : String) : List String :=
  group_4_substances.filter (fun term => strContains ing term)

/-- `has_cosmetic_additives = any(term in ing for term in [...])`
(lines 140–143). -/
def hasCosmetic (ing : String) : Bool :=
  cosmetic_terms.any (fun term => strContains ing term)

/-- `any(term in ing for term in group_2_ingredients)` (line 167). -/
def anyGroup2 (ing : String) : Bool :=
  group_2_ingredients.any (fun term => strContains ing term)

/-- `all(term in ing for term in group_2_ingredients[:1])` (line 180):
note the `[:1]` slice — only the first marker, `"oil"`, is checked. -/
def allGroup2Head (ing : String) : Bool :=
  (group_2_ingredients.take 1).all (fun term => strContains ing term)

/-- The tier decision of the `if/elif` chain at lines 149–195.  The source
computes the tier and the reasoning string in one chain; they are split
into `novaGroupOf` and `reasoningOf` here, with identical conditions in
identical order. -/
def novaGroupOf (ing : String) (icount : Nat) (nova_group_api : Option Int) : Int :=
  if nova_group_api = some 4 ∨ 0 < (group4Matches ing).length ∨ 5 ≤ icount then 4
  else if hasCosmetic ing = true ∧ icount ≤ 3 then 4
  else if 2 ≤ icount ∧ anyGroup2 ing = true then 3
  else if icount ≤ 2 ∧ allGroup2Head ing = true then 2
  else 1

/-- The reasoning string built in the same `if/elif` chain (lines 149–195),
before the API note and `strip()`. -/
def reasoningOf (ing : String) (icount acount : Nat) (nova_group_api : Option Int) : String :=
  if nova_group_api = some 4 ∨ 0 < (group4Matches ing).length ∨ 5 ≤ icount then
    "Industrial formulation. "
      ++ (if (group4Matches ing) ≠ [] then
            "Contains ultra-processed substances: "
              ++ String.intercalate ", " ((group4Matches ing).take 3) ++ ". "
          else "")
      ++ (if 5 ≤ icount then
            "Has " ++ toString icount ++ " ingredients (typical of ultra-processed). "
          else "")
      ++ (if 0 < acount then "Contains " ++ toString acount ++ " additives." else "")
  else if hasCosmetic ing = true ∧ icount ≤ 3 then
    "Simple product with cosmetic or sensory-intensifying additives, classified as ultra-processed per NOVA criteria."
  else if 2 ≤ icount ∧ anyGroup2 ing = true then
    "Processed food. "
      ++ "Contains Group 2 culinary ingredients ("
      ++ String.intercalate ", "
           ((group_2_ingredients.filter (fun term => strContains ing term)).take 2)
      ++ ") added to whole foods. "
      ++ (if icount ≤ 3 then
            "Has " ++ toString icount ++ " ingredients (typical of processed foods). "
          else "")
      ++ (if group_3_additives.any (fun term => strContains ing term) then
            "Contains preservation additives." else "")
  else if icount ≤ 2 ∧ allGroup2Head ing = true then
    "Processed culinary ingredient. "
      ++ "Substance extracted from Group 1 foods or nature, used in cooking and preparation."
  else
    "Unprocessed or minimally processed food. "
      ++ "Natural food with no added salt, sugar, oils, or fats. "
      ++ (if icount ≤ 2 then "Minimal ingredients, no ultra-processing indicators." else "")

/-- `nova_names.get(nova_group, "Unknown")` (lines 202–207). -/
def novaNameOf (nova_group : Int) : String :=
  if nova_group = 1 then "Group 1: Unprocessed or Minimally Processed Foods"
  else if nova_group = 2 then "Group 2: Processed Culinary Ingredients"
  else if nova_group = 3 then "Group 3: Processed Foods"
  else if nova_group = 4 then "Group 4: Ultra-Processed Food and Drink Products"
  else "Unknown"

/-- Result record of `classify_nova` (lines 209–216). -/
structure NovaResult where
  nova_group : Int
  nova_name : String
  reasoning : String
  key_indicators : List String
  ingredient_count : Nat
  additive_count : Nat
  deriving Repr, DecidableEq

/-- `classify_nova(ingredients_text, additives, nova_group_api)`
(tools.py lines 84–216).  `none` for a parameter models Python `None`. -/
def classify_nova (ingredients_text : Option String)
    (additives : Option (List String)) (nova_group_api : Option Int) : NovaResult :=
  let ing := ingOf ingredients_text
  let icount := ingredientCount ing
  let acount := match additives with
    | none => 0
    | some l => if l = [] then 0 else l.length
  let ng := novaGroupOf ing icount nova_group_api
  let reasoning := reasoningOf ing icount acount nova_group_api
  -- lines 197–199: `if nova_group_api and nova_group_api != nova_group:`
  let reasoning := match nova_group_api with
    | none => reasoning
    | some h =>
        if h ≠ 0 ∧ h ≠ ng then
          reasoning ++ " (Note: Open Food Facts classifies as Group " ++ toString h ++ ")"
        else reasoning
  { nova_group := ng
    nova_name := novaNameOf ng
    reasoning := reasoning.trim
    key_indicators := if group4Matches ing ≠ [] then (group4Matches ing).take 5 else []
    ingredient_count := icount
    additive_count := acount }

/-! ## Health score (`compute_health_score`, tools.py lines 221–274) -/

/-- Association-list nutrient read: `float(nutrients.get(key) or 0)` for a
numerically-valued map — an absent key reads as `0` (and a stored `0`
stays `0`).  Dynamic (non-numeric) values are treated separately by
`compute_health_score_dyn`. -/
def nget (nutrients : List (String × ℚ)) (key : String) : ℚ :=
  (nutrients.lookup key).getD 0

/-- `base_scores = {1: 90, 2: 75, 3: 60, 4: 30}` with
`base_scores.get(nova_group, 50)` (lines 239–240). -/
def baseScore (nova_group : Int) : ℚ :=
  if nova_group = 1 then 90
  else if nova_group = 2 then 75
  else if nova_group = 3 then 60
  else if nova_group = 4 then 30
  else 50

/-- The penalty/bonus arithmetic of lines 240–249 on the five extracted
nutrient values. -/
def rawScore (nova_group : Int) (sugar sat_fat salt fiber protein : ℚ) : ℚ :=
  baseScore nova_group
    - min (sugar * 1.5) 30
    - min (sat_fat * 2.0) 25
    - min (salt * 10.0) 20
    + min (fiber * 2.0) 15
    + min (protein * 0.5) 10

/-- `score = max(0.0, min(100.0, score))` (line 252); `0.0` and `100.0`
are the rationals 0 and 100. -/
def pyClamp (score : ℚ) : ℚ := max 0 (min 100 score)

/-- The clamped (pre-rounding) score of `compute_health_score` on a
nutrient map. -/
def clampedScore (nutrients : List (String × ℚ)) (nova_group : Int) : ℚ :=
  pyClamp (rawScore nova_group
    (nget nutrients "sugars_100g")
    (nget nutrients "saturated-fat_100g")
    (nget nutrients "salt_100g")
    (nget nutrients "fiber_100g")
    (nget nutrients "proteins_100g"))

/-- The interpretation chain of lines 255–262, applied to the clamped
score (before rounding). -/
def interpretationOf (score : ℚ) : String :=
  if 80 ≤ score then "Excellent - Whole food, minimal processing"
  else if 65 ≤ score then "Good - Moderately processed"
  else if 50 ≤ score then "Fair - Processed food, consume in moderation"
  else "Poor - Ultra-processed, limit consumption"

/-- Models Python's `round(x, 1)` on exact rationals (half rounds up;
binary-float tie behaviour is not modelled). -/
def round1 (q : ℚ) : ℚ := ((round (10 * q) : ℤ) : ℚ) / 10

/-- Models Python's `round(x, 2)` on exact rationals. -/
def round2 (q : ℚ) : ℚ := ((round (100 * q) : ℤ) : ℚ) / 100

/-- The `breakdown` mapping of lines 267–273. -/
structure Breakdown where
  sugar_g_per_100g : ℚ
  saturated_fat_g_per_100g : ℚ
  salt_g_per_100g : ℚ
  fiber_g_per_100g : ℚ
  protein_g_per_100g : ℚ
  deriving Repr, DecidableEq

/-- Result record of `compute_health_score` (lines 264–274). -/
structure HealthResult where
  health_score : ℚ
  interpretation : String
  breakdown : Breakdown
  deriving Repr, DecidableEq

/-- `compute_health_score(nutrients, nova_group)` (tools.py lines 221–274)
over a numerically-valued nutrient map. -/
def compute_health_score (nutrients : List (String × ℚ)) (nova_group : Int) : HealthResult :=
  let sugar := nget nutrients "sugars_100g"
  let sat_fat := nget nutrients "saturated-fat_100g"
  let salt := nget nutrients "salt_100g"
  let fiber := nget nutrients "fiber_100g"
  let protein := nget nutrients "proteins_100g"
  let score := pyClamp (rawScore nova_group sugar sat_fat salt fiber protein)
  { health_score := round1 score
    interpretation := interpretationOf score
    breakdown :=
      { sugar_g_per_100g := round1 sugar
        saturated_fat_g_per_100g := round1 sat_fat
        salt_g_per_100g := round2 salt
        fiber_g_per_100g := round1 fiber
        protein_g_per_100g := round1 protein } }

/-! ## Dynamically-typed nutrient values (`float(nutrients.get(k) or 0)`) -/

/-- A Python value as it may appear in a `nutriments` mapping: `None`, a
number, or a string. -/
inductive PyVal where
  | vnone
  | vnum (q : ℚ)
  | vstr (s : String)
  deriving Repr, DecidableEq

/-- Python truthiness of a `PyVal` (`None`, `0` and `""` are falsy). -/
def PyVal.truthy : PyVal → Bool
  | .vnone => false
  | .vnum q => q ≠ 0
  | .vstr s => s ≠ ""

/-- Digits-to-number accumulator for `parseFloat?`. -/
def digitsToNat (cs : List Char) : Nat :=
  cs.foldl (fun n c => 10 * n + (c.toNat - 48)) 0

/-- Unsigned decimal literal: digits with an optional fractional part. -/
def parseUnsigned? (cs : List Char) : Option ℚ :=
  let intPart := cs.takeWhile Char.isDigit
  let rest := cs.dropWhile Char.isDigit
  match rest with
  | [] => if intPart = [] then none else some (digitsToNat intPart)
  | '.' :: frac =>
      if frac.all Char.isDigit ∧ (intPart ≠ [] ∨ frac ≠ []) then
        some ((digitsToNat intPart : ℚ) + (digitsToNat frac : ℚ) / 10 ^ frac.length)
      else none
  | _ => none

/-- Models Python's built-in `float()` on a string: strips surrounding
spaces, then accepts an optionally signed decimal literal. -/
def parseFloat? (s : String) : Option ℚ :=
  let cs := ((s.toList.dropWhile (· == ' ')).reverse.dropWhile (· == ' ')).reverse
  match cs with
  | '-' :: rest => (parseUnsigned? rest).map Neg.neg
  | '+' :: rest => parseUnsigned? rest
  | _ => parseUnsigned? cs

/-- Models Python's built-in `float()` on a `PyVal`: numbers pass through,
parsable strings are converted, anything else raises. -/
def pyFloat : PyVal → Except String ℚ
  | .vnum q => .ok q
  | .vnone => .error "float() argument must be a string or a real number, not NoneType"
  | .vstr s =>
      match parseFloat? s with
      | some q => .ok q
      | none => .error ("could not convert string to float: " ++ s)

/-- `float(nutrients.get(key) or 0)` (tools.py lines 232–236) with the
value's dynamic type tracked: an absent key, or any falsy value, reads as
`0`; a truthy value goes through `float()`. -/
def pyFloatOr0 (v : Option PyVal) : Except String ℚ :=
  match v with
  | none => .ok 0
  | some v => if v.truthy then pyFloat v else .ok 0

/-- A nutrient value it is safe to pass through
`float(nutrients.get(key) or 0)`: `None`, any number, the empty string, or
a parsable numeric string.  A non-numeric non-empty string makes
`float()` raise `ValueError`. -/
def PyVal.floatSafe : PyVal → Bool
  | .vnone => true
  | .vnum _ => true
  | .vstr s => s = "" || (parseFloat? s).isSome

/-- `compute_health_score` over a dynamically-typed nutrient map: the five
`float(...)` extractions of lines 232–236 in source order, propagating the
first `ValueError`/`TypeError`, then the pure arithmetic of lines
238–274. -/
def compute_health_score_dyn (nutrients : List (String × PyVal)) (nova_group : Int) :
    Except String HealthResult := do
  let sugar ← pyFloatOr0 (nutrients.lookup "sugars_100g")
  let sat_fat ← pyFloatOr0 (nutrients.lookup "saturated-fat_100g")
  let salt ← pyFloatOr0 (nutrients.lookup "salt_100g")
  let fiber ← pyFloatOr0 (nutrients.lookup "fiber_100g")
  let protein ← pyFloatOr0 (nutrients.lookup "proteins_100g")
  let score := pyClamp (rawScore nova_group sugar sat_fat salt fiber protein)
  .ok { health_score := round1 score
        interpretation := interpretationOf score
        breakdown :=
          { sugar_g_per_100g := round1 sugar
            saturated_fat_g_per_100g := round1 sat_fat
            salt_g_per_100g := round2 salt
            fiber_g_per_100g := round1 fiber
            protein_g_per_100g := round1 protein } }

/-! ## Alternatives (`suggest_alternatives`, tools.py lines 279–355)

The HTTP query itself is an external collaborator; the embedding takes the
fetched raw product list (or the exception raised while fetching/parsing)
as a parameter and models the processing of lines 290–355. -/

/-- A raw candidate record as returned by the external search
(`product.get(...)` fields used at lines 313–320). -/
structure RawProduct where
  product_name : Option String
  brands : Option String
  nutriments : List (String × ℚ)
  nova_group : Option Int
  deriving Repr, DecidableEq

/-- The internal candidate built at lines 322–329. -/
structure Candidate where
  name : String
  brand : String
  nova_group : Int
  sugars_100g : ℚ
  salt_100g : ℚ
  score : ℚ
  deriving Repr, DecidableEq

/-- The candidate a named raw product maps to (lines 317–329):
`score = sugar + salt + nova * 10`, `nova_group` defaulting to 4. -/
def candidateOf (p : RawProduct) : Candidate :=
  let nova := p.nova_group.getD 4
  let sugar := nget p.nutriments "sugars_100g"
  let salt := nget p.nutriments "salt_100g"
  { name := p.product_name.getD ""
    brand := p.brands.getD "Unknown"
    nova_group := nova
    sugars_100g := sugar
    salt_100g := salt
    score := sugar + salt + (nova : ℚ) * 10 }

/-- Whether the loop keeps a raw product: `if not name: continue`
(lines 313–315) skips a missing or empty name. -/
def hasName (p : RawProduct) : Bool :=
  p.product_name.getD "" ≠ ""

/-- The candidate list of lines 311–329: named products, in order, scored. -/
def mkCandidates (products : List RawProduct) : List Candidate :=
  products.filterMap (fun p => if hasName p then some (candidateOf p) else none)

/-- Comparison used by `sorted(candidates, key=lambda c: c["score"])`. -/
def candLE (a b : Candidate) : Prop := a.score ≤ b.score

instance : DecidableRel candLE := fun a b => inferInstanceAs (Decidable (a.score ≤ b.score))

instance : IsTotal Candidate candLE := ⟨fun a b => le_total a.score b.score⟩

instance : IsTrans Candidate candLE := ⟨fun _ _ _ => le_trans⟩

/-- `sorted(candidates, key=lambda c: c["score"])` (line 332): stable
ascending sort by score. -/
def rankCandidates (products : List RawProduct) : List Candidate :=
  List.insertionSort candLE (mkCandidates products)

/-- One entry of the returned `alternatives` list (lines 337–350):
the reason string synthesised from tier/sugar/salt. -/
structure Alternative where
  name : String
  brand : String
  nova_group : Int
  reason : String
  deriving Repr, DecidableEq

/-- Reason synthesis of lines 337–349. -/
def reasonOf (c : Candidate) : String :=
  let parts :=
    (if c.nova_group ≤ 2 then ["minimally processed"] else [])
      ++ (if c.sugars_100g < 5 then ["low sugar"] else [])
      ++ (if c.salt_100g < 0.5 then ["low salt"] else [])
  if parts = [] then "healthier nutritional profile"
  else String.intercalate ", " parts

/-- The alternative built from a retained candidate (lines 345–350). -/
def alternativeOf (c : Candidate) : Alternative :=
  { name := c.name, brand := c.brand, nova_group := c.nova_group, reason := reasonOf c }

/-- The successful-path output list: `candidates[:limit]` after sorting
(lines 334–350). -/
def alternativesFrom (products : List RawProduct) (limit : Nat) : List Alternative :=
  ((rankCandidates products).take limit).map alternativeOf

/-- Output record of `suggest_alternatives` (lines 292, 352, 355). -/
structure AltOutput where
  alternatives : List Alternative
  message : Option String
  error : Option String
  deriving Repr, DecidableEq

/-- `suggest_alternatives(product_data, limit)` (tools.py lines 279–355).
`product_categories` is `product_data.get("categories", [])`; `fetched`
is the outcome of the `requests.get`/`.json()` call inside the `try`
block — `.error e` models the exception caught at line 354. -/
def suggest_alternatives (product_categories : List String)
    (fetched : Except String (List RawProduct)) (limit : Nat) : AltOutput :=
  if product_categories = [] then
    { alternatives := []
      message := some "No category information available for alternatives"
      error := none }
  else
    match fetched with
    | .error e =>
        { alternatives := []
          message := none
          error := some ("Failed to find alternatives: " ++ e) }
    | .ok products =>
        { alternatives := alternativesFrom products limit
          message := none
          error := none }

/-! ## Specification-side definitions

These transcribe the spec's wording (for refinement comparisons), to be
proved equal to the source-side definitions above. -/

/-- The spec's nutrient read: "each nutrient reads as 0 when its key is
absent from the map". -/
def specRead (nutrients : List (String × ℚ)) (key : String) : ℚ :=
  (nutrients.lookup key).getD 0

/-- The spec's base table: "tier1=90, tier2=75, tier3=60, tier4=30;
unknown/out-of-range tier defaults to 50". -/
def specBase (tier : Int) : ℚ :=
  if tier = 1 then 90
  else if tier = 2 then 75
  else if tier = 3 then 60
  else if tier = 4 then 30
  else 50

/-- The spec's `clamp(x, lo, hi)`. -/
def clamp (x lo hi : ℚ) : ℚ := max lo (min hi x)

/-- The health-score formula exactly as the spec states it:
`round(clamp(base − min(sugar*1.5,30) − min(sat_fat*2.0,25) −
min(salt*10.0,20) + min(fiber*2.0,15) + min(protein*0.5,10), 0, 100), 1)`. -/
def spec_health_score (nutrients : List (String × ℚ)) (tier : Int) : ℚ :=
  round1 (clamp
    (specBase tier
      - min (specRead nutrients "sugars_100g" * 1.5) 30
      - min (specRead nutrients "saturated-fat_100g" * 2.0) 25
      - min (specRead nutrients "salt_100g" * 10.0) 20
      + min (specRead nutrients "fiber_100g" * 2.0) 15
      + min (specRead nutrients "proteins_100g" * 0.5) 10)
    0 100)

/-! ## Helper lemmas -/

lemma health_score_eq (nutrients : List (String × ℚ)) (nova_group : Int) :
    (compute_health_score nutrients nova_group).health_score
      = round1 (clampedScore nutrients nova_group) := rfl

lemma interpretation_eq (nutrients : List (String × ℚ)) (nova_group : Int) :
    (compute_health_score nutrients nova_group).interpretation
      = interpretationOf (clampedScore nutrients nova_group) := rfl

lemma nova_group_eq (text : Option String) (adds : Option (List String))
    (hint : Option Int) :
    (classify_nova text adds hint).nova_group
      = novaGroupOf (ingOf text) (ingredientCount (ingOf text)) hint := rfl

lemma key_indicators_eq (text : Option String) (adds : Option (List String))
    (hint : Option Int) :
    (classify_nova text adds hint).key_indicators
      = (group4Matches (ingOf text)).take 5 := by
  show (if group4Matches (ingOf text) ≠ [] then (group4Matches (ingOf text)).take 5 else [])
      = (group4Matches (ingOf text)).take 5
  split_ifs with h
  · rfl
  · rw [not_ne_iff.mp h]
    rfl

lemma round1_mono {a b : ℚ} (h : a ≤ b) : round1 a ≤ round1 b := by
  unfold round1
  have h10 : round (10 * a) ≤ round (10 * b) := by
    rw [round_eq, round_eq]
    exact Int.floor_mono (by linarith)
  have hc : ((round (10 * a) : ℤ) : ℚ) ≤ ((round (10 * b) : ℤ) : ℚ) := by
    exact_mod_cast h10
  linarith

/-! ## Claims -/

/-- Claim C1: for every nutrients map and every tier, `compute_health_score`
returns `health_score` equal to
`round(clamp(base − min(sugar*1.5,30) − min(sat_fat*2.0,25) −
min(salt*10.0,20) + min(fiber*2.0,15) + min(protein*0.5,10), 0, 100), 1)`,
where base is 90/75/60/30 for tiers 1–4 and 50 otherwise, and each
nutrient reads as 0 when its key is absent from the map. -/
theorem claim_C1 (nutrients : List (String × ℚ)) (tier : Int) :
    (compute_health_score nutrients tier).health_score
      = spec_health_score nutrients tier := rfl

/-- Claim C3: the interpretation returned by `compute_health_score` is the
four-band partition with thresholds 80, 65, 50 applied to the computed
(clamped) score: a computed score of exactly 80.0 gives "Excellent",
79.9 gives "Good", 65.0 gives "Good", 64.9 gives "Fair", 50.0 gives
"Fair", and 49.9 gives "Poor". -/
theorem claim_C3 (nutrients : List (String × ℚ)) (tier : Int) :
    (compute_health_score nutrients tier).interpretation
        = interpretationOf (clampedScore nutrients tier)
    ∧ (clampedScore nutrients tier = 80 →
        (compute_health_score nutrients tier).interpretation
          = "Excellent - Whole food, minimal processing")
    ∧ (clampedScore nutrients tier = 79.9 →
        (compute_health_score nutrients tier).interpretation
          = "Good - Moderately processed")
    ∧ (clampedScore nutrients tier = 65 →
        (compute_health_score nutrients tier).interpretation
          = "Good - Moderately processed")
    ∧ (clampedScore nutrients tier = 64.9 →
        (compute_health_score nutrients tier).interpretation
          = "Fair - Processed food, consume in moderation")
    ∧ (clampedScore nutrients tier = 50 →
        (compute_health_score nutrients tier).interpretation
          = "Fair - Processed food, consume in moderation")
    ∧ (clampedScore nutrients tier = 49.9 →
        (compute_health_score nutrients tier).interpretation
          = "Poor - Ultra-processed, limit consumption") := by
  refine ⟨interpretation_eq nutrients tier, ?_, ?_, ?_, ?_, ?_, ?_⟩ <;>
    · intro h
      rw [interpretation_eq, h]
      norm_num [interpretationOf]

/-- Witness for claim C3: each band boundary is hit by a concrete input. -/
theorem claim_C3_witness :
    (clampedScore [("sugars_100g", 20/3)] 1 = 80
      ∧ (compute_health_score [("sugars_100g", 20/3)] 1).interpretation
          = "Excellent - Whole food, minimal processing")
    ∧ (clampedScore [("salt_100g", 101/100)] 1 = 79.9
      ∧ (compute_health_score [("salt_100g", 101/100)] 1).interpretation
          = "Good - Moderately processed")
    ∧ (clampedScore [("salt_100g", 1)] 2 = 65
      ∧ (compute_health_score [("salt_100g", 1)] 2).interpretation
          = "Good - Moderately processed")
    ∧ (clampedScore [("salt_100g", 101/100)] 2 = 64.9
      ∧ (compute_health_score [("salt_100g", 101/100)] 2).interpretation
          = "Fair - Processed food, consume in moderation")
    ∧ (clampedScore [] 0 = 50
      ∧ (compute_health_score [] 0).interpretation
          = "Fair - Processed food, consume in moderation")
    ∧ (clampedScore [("salt_100g", 101/100)] 3 = 49.9
      ∧ (compute_health_score [("salt_100g", 101/100)] 3).interpretation
          = "Poor - Ultra-processed, limit consumption") := by
  have h80 : clampedScore [("sugars_100g", 20/3)] 1 = 80 := by
    simp [clampedScore, nget, List.lookup, rawScore, baseScore, pyClamp]
    norm_num [min_def, max_def]
  have h799 : clampedScore [("salt_100g", 101/100)] 1 = 79.9 := by
    simp [clampedScore, nget, List.lookup, rawScore, baseScore, pyClamp]
    norm_num [min_def, max_def]
  have h65 : clampedScore [("salt_100g", 1)] 2 = 65 := by
    simp [clampedScore, nget, List.lookup, rawScore, baseScore, pyClamp]
    norm_num [min_def, max_def]
  have h649 : clampedScore [("salt_100g", 101/100)] 2 = 64.9 := by
    simp [clampedScore, nget, List.lookup, rawScore, baseScore, pyClamp]
    norm_num [min_def, max_def]
  have h50 : clampedScore [] 0 = 50 := by
    simp [clampedScore, nget, List.lookup, rawScore, baseScore, pyClamp]
    norm_num [min_def, max_def]
  have h499 : clampedScore [("salt_100g", 101/100)] 3 = 49.9 := by
    simp [clampedScore, nget, List.lookup, rawScore, baseScore, pyClamp]
    norm_num [min_def, max_def]
  exact ⟨⟨h80, (claim_C3 [("sugars_100g", 20/3)] 1).2.1 h80⟩,
   ⟨h799, (claim_C3 [("salt_100g", 101/100)] 1).2.2.1 h799⟩,
   ⟨h65, (claim_C3 [("salt_100g", 1)] 2).2.2.2.1 h65⟩,
   ⟨h649, (claim_C3 [("salt_100g", 101/100)] 2).2.2.2.2.1 h649⟩,
   ⟨h50, (claim_C3 [] 0).2.2.2.2.2.1 h50⟩,
   ⟨h499, (claim_C3 [("salt_100g", 101/100)] 3).2.2.2.2.2.2 h499⟩⟩

/-- Claim C9: the health score is monotonically non-increasing in sugar,
saturated fat and salt, and non-decreasing in fiber and protein, with tier
and the other nutrient inputs fixed (stated jointly: worsening all five at
once can only lower the score, which specialises to each single-nutrient
statement). -/
theorem claim_C9 (m m' : List (String × ℚ)) (tier : Int)
    (hsugar : nget m "sugars_100g" ≤ nget m' "sugars_100g")
    (hsat : nget m "saturated-fat_100g" ≤ nget m' "saturated-fat_100g")
    (hsalt : nget m "salt_100g" ≤ nget m' "salt_100g")
    (hfiber : nget m' "fiber_100g" ≤ nget m "fiber_100g")
    (hprotein : nget m' "proteins_100g" ≤ nget m "proteins_100g") :
    (compute_health_score m' tier).health_score
      ≤ (compute_health_score m tier).health_score := by
  rw [health_score_eq, health_score_eq]
  apply round1_mono
  unfold clampedScore pyClamp rawScore
  gcongr

/-- Witness for claim C9: adding sugar can only lower the score. -/
theorem claim_C9_witness :
    nget [] "sugars_100g" ≤ nget [("sugars_100g", 1)] "sugars_100g"
    ∧ (compute_health_score [("sugars_100g", 1)] 1).health_score
        ≤ (compute_health_score [] 1).health_score := by
  refine ⟨by simp [nget, List.lookup], ?_⟩
  apply claim_C9 [] [("sugars_100g", 1)] 1 <;> simp [nget, List.lookup]

/-- Claim C10: the interpretation is selected from the unrounded clamped
score before rounding, so an input whose unrounded clamped score lies in
[79.95, 80) is reported as `health_score` 80.0 together with the
"Good"-band interpretation — a different band than the reported score. -/
theorem claim_C10 (nutrients : List (String × ℚ)) (tier : Int)
    (hlo : 79.95 ≤ clampedScore nutrients tier)
    (hhi : clampedScore nutrients tier < 80) :
    (compute_health_score nutrients tier).health_score = 80
    ∧ (compute_health_score nutrients tier).interpretation
        = "Good - Moderately processed" := by
  constructor
  · rw [health_score_eq]
    unfold round1
    have h800 : round (10 * clampedScore nutrients tier) = 800 := by
      rw [round_eq]
      have h1 : (79.95 : ℚ) = 1599/20 := by norm_num
      rw [h1] at hlo
      apply Int.floor_eq_iff.mpr
      constructor
      · push_cast
        linarith
      · push_cast
        linarith
    rw [h800]
    norm_num
  · rw [interpretation_eq]
    unfold interpretationOf
    have h1 : (79.95 : ℚ) = 1599/20 := by norm_num
    rw [h1] at hlo
    rw [if_neg (by linarith), if_pos (by linarith)]

/-- Witness for claim C10: salt 1.0003 at tier 1 gives clamped score
79.997, reported as 80.0 with the "Good" interpretation. -/
theorem claim_C10_witness :
    (79.95 : ℚ) ≤ clampedScore [("salt_100g", 10003/10000)] 1
    ∧ clampedScore [("salt_100g", 10003/10000)] 1 < 80
    ∧ (compute_health_score [("salt_100g", 10003/10000)] 1).health_score = 80
    ∧ (compute_health_score [("salt_100g", 10003/10000)] 1).interpretation
        = "Good - Moderately processed" := by
  have hval : clampedScore [("salt_100g", 10003/10000)] 1 = 79997/1000 := by
    simp [clampedScore, nget, List.lookup, rawScore, baseScore, pyClamp]
    norm_num [min_def, max_def]
  have hlo : (79.95 : ℚ) ≤ clampedScore [("salt_100g", 10003/10000)] 1 := by
    rw [hval]; norm_num
  have hhi : clampedScore [("salt_100g", 10003/10000)] 1 < 80 := by
    rw [hval]; norm_num
  exact ⟨hlo, hhi,
    (claim_C10 [("salt_100g", 10003/10000)] 1 hlo hhi).1,
    (claim_C10 [("salt_100g", 10003/10000)] 1 hlo hhi).2⟩

/-- Claim C2: `classify_nova` returns tier 4 exactly when the upstream hint
equals 4, or an industrial-substance marker occurs in the lower-cased
text, or the comma-count ingredient estimate is ≥ 5, or else when a
cosmetic/sensory marker occurs and the estimate is ≤ 3; in particular
"water, sugar, citric acid, natural flavor, potassium sorbate, red 40"
yields tier 4. -/
theorem claim_C2 :
    (∀ (text : Option String) (adds : Option (List String)) (hint : Option Int),
      ((classify_nova text adds hint).nova_group = 4 ↔
        hint = some 4
          ∨ 0 < (group4Matches (ingOf text)).length
          ∨ 5 ≤ ingredientCount (ingOf text)
          ∨ (hasCosmetic (ingOf text) = true ∧ ingredientCount (ingOf text) ≤ 3)))
    ∧ (classify_nova
        (some "water, sugar, citric acid, natural flavor, potassium sorbate, red 40")
        none none).nova_group = 4 := by
  constructor
  · intro text adds hint
    rw [nova_group_eq]
    unfold novaGroupOf
    split_ifs with h1 h2 h3 h4
    · exact iff_of_true rfl (by tauto)
    · exact iff_of_true rfl (by tauto)
    · exact iff_of_false (by norm_num) (by tauto)
    · exact iff_of_false (by norm_num) (by tauto)
    · exact iff_of_false (by norm_num) (by tauto)
  · decide

/-- Claim C4 counterexample: the single culinary marker "butter" (estimate
1 ≤ 2, no tier-4 or tier-3 rule matching) is classified tier 1, not
tier 2 — the source's `group_2_ingredients[:1]` slice checks only
"oil". -/
theorem claim_C4_counterexample :
    ingOf (some "butter") = "butter"
    ∧ ingredientCount (ingOf (some "butter")) = 1
    ∧ "butter" ∈ group_2_ingredients
    ∧ group4Matches (ingOf (some "butter")) = []
    ∧ hasCosmetic (ingOf (some "butter")) = false
    ∧ (classify_nova (some "butter") none none).nova_group = 1
    ∧ (classify_nova (some "butter") none none).nova_group ≠ 2 := by decide

/-- Claim C4 as amended: when no tier-4 and no tier-3 rule matched,
`classify_nova` returns tier 2 exactly when the ingredient estimate is
≤ 2 and the text contains the substring "oil" (only the first culinary
marker is checked, because of the `[:1]` slice); texts consisting of any
other single culinary marker fall through to tier 1. -/
theorem claim_C4_amended (text : Option String) (adds : Option (List String))
    (hint : Option Int) :
    (classify_nova text adds hint).nova_group = 2 ↔
      ¬(hint = some 4
          ∨ 0 < (group4Matches (ingOf text)).length
          ∨ 5 ≤ ingredientCount (ingOf text))
      ∧ ¬(hasCosmetic (ingOf text) = true ∧ ingredientCount (ingOf text) ≤ 3)
      ∧ ¬(2 ≤ ingredientCount (ingOf text) ∧ anyGroup2 (ingOf text) = true)
      ∧ ingredientCount (ingOf text) ≤ 2
      ∧ strContains (ingOf text) "oil" = true := by
  have hoil : allGroup2Head (ingOf text) = strContains (ingOf text) "oil" := by
    simp [allGroup2Head, group_2_ingredients]
  rw [nova_group_eq]
  unfold novaGroupOf
  rw [hoil]
  split_ifs with h1 h2 h3 h4
  · exact iff_of_false (by norm_num) (by tauto)
  · exact iff_of_false (by norm_num) (by tauto)
  · exact iff_of_false (by norm_num) (by tauto)
  · exact iff_of_true rfl (by tauto)
  · exact iff_of_false (by norm_num) (by tauto)

/-- Claim C5 counterexample: on "whey, casein" the decided tier-4 markers
are listed as ["casein", "whey"] — vocabulary order, although "whey"
occurs first in the text (position 0 versus 6), contradicting "in the
order first matched in the ingredients text"; and on "olive oil, salt"
(tier 3 via culinary markers) `key_indicators` is empty, listing none of
the markers that fired. -/
theorem claim_C5_counterexample :
    (classify_nova (some "whey, casein") none none).key_indicators
        = ["casein", "whey"]
    ∧ strFind "whey, casein" "whey" = some 0
    ∧ strFind "whey, casein" "casein" = some 6
    ∧ ¬((6 : Nat) ≤ 0)
    ∧ (classify_nova (some "olive oil, salt") none none).nova_group = 3
    ∧ anyGroup2 (ingOf (some "olive oil, salt")) = true
    ∧ (classify_nova (some "olive oil, salt") none none).key_indicators = [] := by
  decide

/-- Claim C5 as amended: `key_indicators` is always the first five group-4
industrial-substance markers found in the text, in the fixed vocabulary
order (a subsequence of `group_4_substances`, not the order first matched
in the text), has length ≤ 5, and is empty whenever the tier was decided
by any rule other than the industrial-substance rule. -/
theorem claim_C5_amended (text : Option String) (adds : Option (List String))
    (hint : Option Int) :
    (classify_nova text adds hint).key_indicators
        = (group4Matches (ingOf text)).take 5
    ∧ (classify_nova text adds hint).key_indicators.length ≤ 5
    ∧ (classify_nova text adds hint).key_indicators.Sublist group_4_substances := by
  refine ⟨key_indicators_eq text adds hint, ?_, ?_⟩
  · rw [key_indicators_eq]
    simp [List.length_take]
  · rw [key_indicators_eq]
    exact ((group4Matches (ingOf text)).take_sublist 5).trans
      (List.filter_sublist group_4_substances)

lemma lookup_mem {m : List (String × PyVal)} {k : String} {v : PyVal}
    (h : m.lookup k = some v) : (k, v) ∈ m := by
  induction m with
  | nil => simp [List.lookup] at h
  | cons p t ih =>
    rw [List.lookup] at h
    rcases hk : (k == p.1) with _ | _
    · rw [hk] at h
      exact List.mem_cons_of_mem p (ih h)
    · rw [hk] at h
      have hkp : k = p.1 := eq_of_beq hk
      cases h
      have hpair : (k, p.2) = p := by rw [hkp]
      rw [hpair]
      exact List.mem_cons_self p t

lemma pyFloatOr0_some_safe {v : PyVal} (hv : PyVal.floatSafe v = true) :
    ∃ q, pyFloatOr0 (some v) = Except.ok q := by
  cases v with
  | vnone => exact ⟨0, rfl⟩
  | vnum q =>
    by_cases hq : q = 0
    · exact ⟨0, by simp [pyFloatOr0, PyVal.truthy, hq]⟩
    · exact ⟨q, by simp [pyFloatOr0, PyVal.truthy, hq, pyFloat]⟩
  | vstr s =>
    by_cases hs : s = ""
    · exact ⟨0, by simp [pyFloatOr0, PyVal.truthy, hs]⟩
    · have hp : (parseFloat? s).isSome = true := by
        simp [PyVal.floatSafe, hs] at hv
        exact hv
      rcases hq : parseFloat? s with _ | q
      · rw [hq] at hp
        simp at hp
      · exact ⟨q, by simp [pyFloatOr0, PyVal.truthy, hs, pyFloat, hq]⟩

lemma pyFloatOr0_safe {m : List (String × PyVal)}
    (hsafe : ∀ p ∈ m, PyVal.floatSafe p.2 = true) (k : String) :
    ∃ q, pyFloatOr0 (m.lookup k) = .ok q := by
  cases hm : m.lookup k with
  | none => exact ⟨0, rfl⟩
  | some v => exact pyFloatOr0_some_safe (hsafe (k, v) (lookup_mem hm))

lemma lookup_map_vnum (m : List (String × ℚ)) (k : String) :
    (m.map (fun p => (p.1, PyVal.vnum p.2))).lookup k = (m.lookup k).map PyVal.vnum := by
  induction m with
  | nil => rfl
  | cons p t ih =>
    rw [List.map_cons, List.lookup, List.lookup]
    cases hk : (k == p.1) <;> simp [hk, ih]

/-- On a numerically-valued map the dynamically-typed scorer agrees with
the pure `compute_health_score`: the `PyVal` embedding restricts to the
spec's numeric data model. -/
lemma compute_health_score_dyn_agrees (m : List (String × ℚ)) (t : Int) :
    compute_health_score_dyn (m.map (fun p => (p.1, PyVal.vnum p.2))) t
      = Except.ok (compute_health_score m t) := by
  have h : ∀ k, pyFloatOr0 ((m.map (fun p => (p.1, PyVal.vnum p.2))).lookup k)
      = Except.ok (nget m k) := by
    intro k
    rw [lookup_map_vnum]
    cases hm : m.lookup k with
    | none => simp [nget, hm, pyFloatOr0]
    | some q =>
      by_cases hq : q = 0 <;>
        simp [pyFloatOr0, PyVal.truthy, pyFloat, hq, nget, hm]
  unfold compute_health_score_dyn
  rw [h, h, h, h, h]
  rfl

/-- Claim C6 counterexample: `compute_health_score` is not total over
arbitrary values at the nutrient keys — a non-numeric string value makes
Python's `float()` raise `ValueError`. -/
theorem claim_C6_counterexample :
    compute_health_score_dyn [("sugars_100g", PyVal.vstr "abc")] 1
      = .error "could not convert string to float: abc" := by rfl

/-- Claim C6 as amended: `classify_nova` is total — it returns a result
(with a tier in {1,2,3,4}) for every optional ingredients_text and
additives — and `compute_health_score` is total whenever every value
stored in the nutrients map is a number, `None`, the empty string or a
numeric string; only a non-numeric non-empty string value (outside the
spec's numeric data model) makes it raise. -/
theorem claim_C6_amended (nutrients : List (String × PyVal)) (tier : Int)
    (text : Option String) (adds : Option (List String)) (hint : Option Int)
    (hsafe : ∀ p ∈ nutrients, PyVal.floatSafe p.2 = true) :
    (∃ r, compute_health_score_dyn nutrients tier = Except.ok r)
    ∧ ((classify_nova text adds hint).nova_group = 1
        ∨ (classify_nova text adds hint).nova_group = 2
        ∨ (classify_nova text adds hint).nova_group = 3
        ∨ (classify_nova text adds hint).nova_group = 4) := by
  constructor
  · obtain ⟨q1, h1⟩ := pyFloatOr0_safe hsafe "sugars_100g"
    obtain ⟨q2, h2⟩ := pyFloatOr0_safe hsafe "saturated-fat_100g"
    obtain ⟨q3, h3⟩ := pyFloatOr0_safe hsafe "salt_100g"
    obtain ⟨q4, h4⟩ := pyFloatOr0_safe hsafe "fiber_100g"
    obtain ⟨q5, h5⟩ := pyFloatOr0_safe hsafe "proteins_100g"
    unfold compute_health_score_dyn
    rw [h1, h2, h3, h4, h5]
    exact ⟨_, rfl⟩
  · rw [nova_group_eq]
    unfold novaGroupOf
    split_ifs <;> norm_num

/-- Witness for claim C6 (amended): a numeric-valued map is scored without
error and a plain text is classified into the 1–4 range. -/
theorem claim_C6_amended_witness :
    (∀ p ∈ [("sugars_100g", PyVal.vnum 3)], PyVal.floatSafe p.2 = true)
    ∧ (∃ r, compute_health_score_dyn [("sugars_100g", PyVal.vnum 3)] 1 = Except.ok r)
    ∧ ((classify_nova (some "apples") none none).nova_group = 1
        ∨ (classify_nova (some "apples") none none).nova_group = 2
        ∨ (classify_nova (some "apples") none none).nova_group = 3
        ∨ (classify_nova (some "apples") none none).nova_group = 4) := by
  have hsafe : ∀ p ∈ [("sugars_100g", PyVal.vnum 3)], PyVal.floatSafe p.2 = true := by
    decide
  have h := claim_C6_amended [("sugars_100g", PyVal.vnum 3)] 1
    (some "apples") none none hsafe
  exact ⟨hsafe, h.1, h.2⟩

/-- Claim C7: the candidate-processing of `suggest_alternatives` discards
candidates lacking a name, assigns each remaining candidate the composite
score sugar + salt + tier·10 with tier defaulting to 4 when absent, sorts
ascending by that score, and returns at most `limit` entries; of the two
candidates {sugar 2, salt 0.1, tier 1} and {sugar 20, salt 1.5, tier 4},
the tier-1 candidate ranks first. -/
theorem claim_C7 :
    (∀ (products : List RawProduct) (limit : Nat),
      (alternativesFrom products limit).length ≤ limit
      ∧ List.Sorted candLE (rankCandidates products)
      ∧ (rankCandidates products).Perm (mkCandidates products)
      ∧ mkCandidates products = (products.filter hasName).map candidateOf
      ∧ ∀ p ∈ products, (candidateOf p).score
          = nget p.nutriments "sugars_100g" + nget p.nutriments "salt_100g"
            + ((p.nova_group.getD 4 : Int) : ℚ) * 10)
    ∧ (alternativesFrom
        [⟨some "high-sugar cereal", none, [("sugars_100g", 20), ("salt_100g", 1.5)], some 4⟩,
         ⟨some "plain oats", none, [("sugars_100g", 2), ("salt_100g", 0.1)], some 1⟩] 3).map
        Alternative.name
      = ["plain oats", "high-sugar cereal"] := by
  constructor
  · intro products limit
    refine ⟨?_, ?_, ?_, ?_, ?_⟩
    · unfold alternativesFrom
      rw [List.length_map]
      exact (List.length_take_le limit _)
    · exact List.sorted_insertionSort candLE (mkCandidates products)
    · exact List.perm_insertionSort candLE (mkCandidates products)
    · unfold mkCandidates
      induction products with
      | nil => rfl
      | cons p t ih =>
        rcases hp : hasName p with _ | _ <;>
          simp [List.filterMap_cons, List.filter_cons, hp, ih]
    · intro p _
      rfl
  · simp [alternativesFrom, rankCandidates, mkCandidates, candidateOf, hasName, nget,
      List.lookup, alternativeOf, candLE, List.insertionSort, List.orderedInsert]
    norm_num [alternativeOf]

/-- Witness for claim C7: the ranking properties evaluated on a concrete
one-candidate fetch. -/
theorem claim_C7_witness :
    (alternativesFrom [⟨some "plain oats", none, [("sugars_100g", 2)], some 1⟩] 3).length ≤ 3
    ∧ (⟨some "plain oats", none, [("sugars_100g", 2)], some 1⟩ : RawProduct)
        ∈ [(⟨some "plain oats", none, [("sugars_100g", 2)], some 1⟩ : RawProduct)]
    ∧ (candidateOf ⟨some "plain oats", none, [("sugars_100g", 2)], some 1⟩).score
        = nget [("sugars_100g", 2)] "sugars_100g" + nget [("sugars_100g", 2)] "salt_100g"
          + (((some 1 : Option Int).getD 4 : Int) : ℚ) * 10 := by
  have h := claim_C7.1 [⟨some "plain oats", none, [("sugars_100g", 2)], some 1⟩] 3
  have hmem : (⟨some "plain oats", none, [("sugars_100g", 2)], some 1⟩ : RawProduct)
      ∈ [(⟨some "plain oats", none, [("sugars_100g", 2)], some 1⟩ : RawProduct)] :=
    List.mem_cons_self _ _
  exact ⟨h.1, hmem, h.2.2.2.2 _ hmem⟩

/-- Claim C8: `suggest_alternatives` never propagates an error — an empty
categories sequence yields an empty alternatives list with an explanatory
message (and no error), and a failing candidate query yields an empty
alternatives list instead of raising. -/
theorem claim_C8 :
    (∀ (fetched : Except String (List RawProduct)) (limit : Nat),
      suggest_alternatives [] fetched limit
        = { alternatives := []
            message := some "No category information available for alternatives"
            error := none })
    ∧ (∀ (categories : List String) (e : String) (limit : Nat),
      (suggest_alternatives categories (Except.error e) limit).alternatives = []) := by
  constructor
  · intro fetched limit
    rfl
  · intro categories e limit
    unfold suggest_alternatives
    split_ifs <;> rfl

end ProductAgent
